import Mathlib

/-!
Verification of the tool-dispatch core of the `mcp-codepipeline-server`
repository: a shallow embedding, in Lean 4, of the twelve MCP tool handlers
(`src/tools/*.ts`) and the `CallToolRequestSchema` dispatcher
(`src/index.ts` / server configuration), together with proofs of the
behavioural properties stated in the repository's specification.

Modelling conventions:
* JavaScript `Date` values are epoch milliseconds (`JsDate`); the fragment of
  ECMAScript `Date` parsing actually exercised by the tools (ISO-8601 UTC
  strings with a `Z` suffix, with or without a millisecond field) and
  `Date.prototype.toISOString` are embedded executably.
* JavaScript numbers are `ℚ` (the tools perform only exact arithmetic on
  CloudWatch statistics); the infinities produced by `Math.min()` /
  `Math.max()` on empty argument lists are represented by the `JsNum` type.
* `undefined` is `Option.none`; the JS `||` operator on strings treats the
  empty string as falsy (`jsOrStr`); destructuring defaults replace only
  `undefined` (`Option.getD`).
* Each tool is a pure function from a `Remote` oracle (one fixed response per
  remote endpoint, mirroring a snapshot of the AWS side) and the argument bag
  to a result `Except JsError ToolPayload` paired with the ordered trace of
  remote calls it issued.  `JSON.stringify(·, null, 2)` is presentation only
  and is modelled by returning the typed payload itself.
-/

namespace CodePipelineMCP

/-! ## JavaScript primitives -/

/-- A JavaScript `Date`: milliseconds since the Unix epoch (UTC). -/
structure JsDate where
  ms : Int
deriving DecidableEq

/-- Decimal digit character. -/
def digitChar (n : Nat) : Char := Char.ofNat (48 + n % 10)

def pad2 (n : Nat) : String := String.mk [digitChar (n / 10), digitChar n]

def pad3 (n : Nat) : String :=
  String.mk [digitChar (n / 100), digitChar (n / 10), digitChar n]

def pad4 (n : Nat) : String :=
  String.mk [digitChar (n / 1000), digitChar (n / 100), digitChar (n / 10), digitChar n]

def natDigitsAux : Nat → Nat → List Char
  | 0, _ => []
  | fuel + 1, n => if n < 10 then [digitChar n] else natDigitsAux fuel (n / 10) ++ [digitChar n]

/-- Decimal rendering of a natural number (fuel-based, kernel-reducible). -/
def natToString (n : Nat) : String := String.mk (natDigitsAux (n + 1) n)

/-- Civil date (year, month, day) from days since the Unix epoch
(Howard Hinnant's `civil_from_days`, as used by every ECMAScript engine's
`toISOString` for the proleptic Gregorian calendar). -/
def civilFromDays (z : Int) : Nat × Nat × Nat :=
  let z' := z + 719468
  let era := Int.fdiv z' 146097
  let doe := (z' - era * 146097).toNat
  let yoe := (doe - doe / 1460 + doe / 36524 - doe / 146096) / 365
  let doy := doe - (365 * yoe + yoe / 4 - yoe / 100)
  let mp := (5 * doy + 2) / 153
  let d := doy - (153 * mp + 2) / 5 + 1
  let m := if mp < 10 then mp + 3 else mp - 9
  let y : Int := (yoe : Int) + era * 400 + (if m ≤ 2 then 1 else 0)
  (y.toNat, m, d)

/-- Days since the Unix epoch from a civil date (Hinnant's `days_from_civil`). -/
def daysFromCivil (y mo d : Nat) : Int :=
  let ya : Int := if mo ≤ 2 then (y : Int) - 1 else (y : Int)
  let era := Int.fdiv ya 400
  let yoe := (ya - era * 400).toNat
  let mp := if 2 < mo then mo - 3 else mo + 9
  let doy := (153 * mp + 2) / 5 + d - 1
  let doe := yoe * 365 + yoe / 4 - yoe / 100 + doy
  era * 146097 + (doe : Int) - 719468

/-- `Date.prototype.toISOString`: canonical ISO-8601 UTC rendering
`YYYY-MM-DDTHH:mm:ss.sssZ` (years 0–9999; always exactly three fractional
digits and a `Z` suffix, per ECMA-262). -/
def jsToISOString (d : JsDate) : String :=
  let days := Int.fdiv d.ms 86400000
  let msOfDay := (d.ms - days * 86400000).toNat
  let c := civilFromDays days
  pad4 c.1 ++ "-" ++ pad2 c.2.1 ++ "-" ++ pad2 c.2.2 ++ "T" ++
    pad2 (msOfDay / 3600000) ++ ":" ++ pad2 (msOfDay / 60000 % 60) ++ ":" ++
    pad2 (msOfDay / 1000 % 60) ++ "." ++ pad3 (msOfDay % 1000) ++ "Z"

def digitVal (c : Char) : Option Nat :=
  if 48 ≤ c.toNat ∧ c.toNat ≤ 57 then some (c.toNat - 48) else none

def parse2 : List Char → Option (Nat × List Char)
  | a :: b :: rest =>
      match digitVal a, digitVal b with
      | some x, some y => some (10 * x + y, rest)
      | _, _ => none
  | _ => none

def parse4 : List Char → Option (Nat × List Char)
  | a :: b :: c :: d :: rest =>
      match digitVal a, digitVal b, digitVal c, digitVal d with
      | some w, some x, some y, some z => some (1000 * w + 100 * x + 10 * y + z, rest)
      | _, _, _, _ => none
  | _ => none

def expectChar (c : Char) : List Char → Option (List Char)
  | x :: rest => if x = c then some rest else none
  | [] => none

/-- A separator character followed by a two-digit group. -/
def parseSep2 (c : Char) (cs : List Char) : Option (Nat × List Char) :=
  (expectChar c cs).bind parse2

/-- The tail of an ISO-8601 UTC string: either a bare `Z` or a three-digit
millisecond field `.sssZ`. -/
def parseMsZ : List Char → Option Nat
  | ['Z'] => some 0
  | ['.', a, b, c, 'Z'] =>
      match digitVal a, digitVal b, digitVal c with
      | some x, some y, some z => some (100 * x + 10 * y + z)
      | _, _, _ => none
  | _ => none

/-- The `YYYY-MM-DD` component: year, month, day, remaining characters. -/
def parseYmdPart (cs : List Char) : Option (Nat × Nat × Nat × List Char) :=
  (parse4 cs).bind fun p =>
  (parseSep2 '-' p.2).bind fun q =>
  (parseSep2 '-' q.2).bind fun r =>
  some (p.1, q.1, r.1, r.2)

/-- The `THH:mm:ss(.sss)?Z` component: hour, minute, second, milliseconds. -/
def parseHmsPart (cs : List Char) : Option (Nat × Nat × Nat × Nat) :=
  (expectChar 'T' cs).bind fun cs1 =>
  (parse2 cs1).bind fun p =>
  (parseSep2 ':' p.2).bind fun q =>
  (parseSep2 ':' q.2).bind fun r =>
  (parseMsZ r.2).bind fun ms =>
  some (p.1, q.1, r.1, ms)

def validDateFields (mo d h mi sec : Nat) : Bool :=
  decide (1 ≤ mo) && decide (mo ≤ 12) && decide (1 ≤ d) && decide (d ≤ 31) &&
  decide (h ≤ 23) && decide (mi ≤ 59) && decide (sec ≤ 59)

/-- The fragment of ECMAScript date-string parsing (`new Date(string)`)
exercised by the tools: `YYYY-MM-DDTHH:mm:ssZ` and `YYYY-MM-DDTHH:mm:ss.sssZ`
(ISO-8601, UTC).  Out-of-range components yield an invalid date (`none`). -/
def jsDateParse (s : String) : Option JsDate :=
  (parseYmdPart s.data).bind fun y4 =>
  (parseHmsPart y4.2.2.2).bind fun h4 =>
  if validDateFields y4.2.1 y4.2.2.1 h4.1 h4.2.1 h4.2.2.1 then
    some ⟨daysFromCivil y4.1 y4.2.1 y4.2.2.1 * 86400000 +
      (h4.1 * 3600000 + h4.2.1 * 60000 + h4.2.2.1 * 1000 + h4.2.2.2 : Nat)⟩
  else none

/-- JavaScript `a || b` on an optional string: `undefined` and `""` are falsy. -/
def jsOrStr (a : Option String) (b : String) : String :=
  match a with
  | none => b
  | some s => if s = "" then b else s

/-- JavaScript `a || b` where both sides are optional strings. -/
def jsOrOptStr (a b : Option String) : Option String :=
  match a with
  | none => b
  | some s => if s = "" then b else some s

/-- JavaScript `a || b` on an optional number: `undefined` and `0` are falsy. -/
def jsOrNum (a : Option ℚ) (b : ℚ) : ℚ :=
  match a with
  | none => b
  | some q => if q = 0 then b else q

/-- Template-literal interpolation of a possibly-`undefined` string. -/
def jsInterp (a : Option String) : String := a.getD "undefined"

/-- `String(x)` coercion of a possibly-`undefined` string. -/
def jsStringCoerce (a : Option String) : String := a.getD "undefined"

/-- A JavaScript number that may be one of the infinities produced by
`Math.min()` / `Math.max()` over an empty argument list. -/
inductive JsNum where
  | posInf : JsNum
  | negInf : JsNum
  | fin (q : ℚ) : JsNum
deriving DecidableEq

/-- `Math.min(...l)`: `+Infinity` on no arguments. -/
def jsMathMin (l : List ℚ) : JsNum :=
  match l with
  | [] => .posInf
  | x :: xs => .fin (xs.foldl min x)

/-- `Math.max(...l)`: `-Infinity` on no arguments. -/
def jsMathMax (l : List ℚ) : JsNum :=
  match l with
  | [] => .negInf
  | x :: xs => .fin (xs.foldl max x)

/-- `Number.prototype.toFixed(2)` (ECMA-262): sign taken from the argument,
then the magnitude rounded to the nearest hundredth, ties away from zero. -/
def toFixed2 (q : ℚ) : String :=
  let sign := if q < 0 then "-" else ""
  let n : Int := Int.floor (|q| * 100 + 1 / 2)
  let m := n.toNat
  sign ++ natToString (m / 100) ++ "." ++ pad2 (m % 100)

/-- A thrown JavaScript error (its `name` and `message`). -/
structure JsError where
  name : String
  message : String
deriving DecidableEq

/-- `Error.prototype.toString`, as produced by template interpolation. -/
def jsErrorToString (e : JsError) : String :=
  if e.message = "" then e.name else e.name ++ ": " ++ e.message

/-- A JavaScript `string | Date` union value. -/
inductive StrDate where
  | str (s : String) : StrDate
  | date (d : JsDate) : StrDate
deriving DecidableEq

/-- A JavaScript `number | string` union value. -/
inductive NumStr where
  | num (n : Nat) : NumStr
  | str (s : String) : NumStr
deriving DecidableEq

/-! ## Remote (AWS SDK) response shapes

One structure per AWS response type used by the tools, with `Option` at every
position the tools treat as possibly absent (optional chaining / `||`
defaulting in the source). -/

/-- `AWS.CodePipeline.PipelineSummary`. -/
structure AwsPipelineSummary where
  name : Option String := none
  version : Option Nat := none
  created : Option JsDate := none
  updated : Option JsDate := none
deriving DecidableEq

/-- `AWS.CodePipeline.ListPipelinesOutput`. -/
structure AwsListPipelinesOutput where
  pipelines : Option (List AwsPipelineSummary) := none
deriving DecidableEq

/-- `AWS.CodePipeline.TransitionState`. -/
structure AwsTransitionState where
  enabled : Option Bool := none
  lastChangedBy : Option String := none
  lastChangedAt : Option JsDate := none
  disabledReason : Option String := none
deriving DecidableEq

/-- `AWS.CodePipeline.StageExecution`. -/
structure AwsStageExecution where
  pipelineExecutionId : Option String := none
  status : Option String := none
deriving DecidableEq

/-- `AWS.CodePipeline.ErrorDetails`. -/
structure AwsErrorDetails where
  code : Option String := none
  message : Option String := none
deriving DecidableEq

/-- `AWS.CodePipeline.ActionExecution`. -/
structure AwsActionExecution where
  status : Option String := none
  summary : Option String := none
  lastStatusChange : Option JsDate := none
  token : Option String := none
  externalExecutionId : Option String := none
  externalExecutionUrl : Option String := none
  errorDetails : Option AwsErrorDetails := none
deriving DecidableEq

/-- `AWS.CodePipeline.ActionRevision`. -/
structure AwsActionRevision where
  revisionId : Option String := none
  revisionChangeId : Option String := none
  created : Option JsDate := none
deriving DecidableEq

/-- `AWS.CodePipeline.ActionState`. -/
structure AwsActionState where
  actionName : Option String := none
  currentRevision : Option AwsActionRevision := none
  latestExecution : Option AwsActionExecution := none
  entityUrl : Option String := none
deriving DecidableEq

/-- `AWS.CodePipeline.StageState`. -/
structure AwsStageState where
  stageName : Option String := none
  inboundTransitionState : Option AwsTransitionState := none
  actionStates : Option (List AwsActionState) := none
  latestExecution : Option AwsStageExecution := none
deriving DecidableEq

/-- `AWS.CodePipeline.GetPipelineStateOutput`. -/
structure AwsGetPipelineStateOutput where
  pipelineName : Option String := none
  pipelineVersion : Option Nat := none
  stageStates : Option (List AwsStageState) := none
  created : Option JsDate := none
  updated : Option JsDate := none
deriving DecidableEq

/-- `AWS.CodePipeline.SourceRevision`. -/
structure AwsSourceRevision where
  actionName : Option String := none
  revisionId : Option String := none
  revisionUrl : Option String := none
  revisionSummary : Option String := none
deriving DecidableEq

/-- `AWS.CodePipeline.PipelineExecutionSummary`. -/
structure AwsPipelineExecutionSummary where
  pipelineExecutionId : Option String := none
  status : Option String := none
  startTime : Option JsDate := none
  lastUpdateTime : Option JsDate := none
  sourceRevisions : Option (List AwsSourceRevision) := none
deriving DecidableEq

/-- `AWS.CodePipeline.ListPipelineExecutionsOutput`. -/
structure AwsListPipelineExecutionsOutput where
  pipelineExecutionSummaries : Option (List AwsPipelineExecutionSummary) := none
deriving DecidableEq

/-- `AWS.CodePipeline.ActionTypeId` (passed through unchanged by the tools). -/
structure AwsActionTypeId where
  category : String
  owner : String
  provider : String
  version : String
deriving DecidableEq

/-- `AWS.CodePipeline.ArtifactStore` (passed through unchanged). -/
structure AwsArtifactStore where
  storeType : Option String := none
  location : Option String := none
deriving DecidableEq

/-- `AWS.CodePipeline.ActionDeclaration` (fields the details tool projects). -/
structure AwsActionDeclaration where
  name : Option String := none
  actionTypeId : Option AwsActionTypeId := none
  runOrder : Option Nat := none
  configuration : Option (List (String × String)) := none
  outputArtifacts : Option (List String) := none
  inputArtifacts : Option (List String) := none
  region : Option String := none
  actionNamespace : Option String := none
deriving DecidableEq

/-- `AWS.CodePipeline.StageDeclaration`. -/
structure AwsStageDeclaration where
  name : Option String := none
  actions : Option (List AwsActionDeclaration) := none
deriving DecidableEq

/-- `AWS.CodePipeline.PipelineDeclaration`. -/
structure AwsPipelineDeclaration where
  name : Option String := none
  roleArn : Option String := none
  artifactStore : Option AwsArtifactStore := none
  stages : Option (List AwsStageDeclaration) := none
  version : Option Nat := none
deriving DecidableEq

/-- `AWS.CodePipeline.PipelineMetadata`. -/
structure AwsPipelineMetadata where
  pipelineArn : Option String := none
  created : Option JsDate := none
  updated : Option JsDate := none
deriving DecidableEq

/-- `AWS.CodePipeline.GetPipelineOutput`. -/
structure AwsGetPipelineOutput where
  pipeline : Option AwsPipelineDeclaration := none
  metadata : Option AwsPipelineMetadata := none
deriving DecidableEq

/-- `AWS.CodePipeline.ArtifactRevision`. -/
structure AwsArtifactRevision where
  name : Option String := none
  revisionId : Option String := none
  revisionSummary : Option String := none
  revisionUrl : Option String := none
deriving DecidableEq

/-- `AWS.CodePipeline.PipelineExecution`. -/
structure AwsPipelineExecution where
  pipelineName : Option String := none
  pipelineVersion : Option Nat := none
  pipelineExecutionId : Option String := none
  status : Option String := none
  artifactRevisions : Option (List AwsArtifactRevision) := none
deriving DecidableEq

/-- `AWS.CodePipeline.GetPipelineExecutionOutput`. -/
structure AwsGetPipelineExecutionOutput where
  pipelineExecution : Option AwsPipelineExecution := none
deriving DecidableEq

/-- `AWS.CodePipeline.StartPipelineExecutionOutput`. -/
structure AwsStartPipelineExecutionOutput where
  pipelineExecutionId : Option String := none
deriving DecidableEq

/-- The `webhook` member of `AWS.CodePipeline.PutWebhookOutput`
(only its `url` field is consulted by the tool). -/
structure AwsWebhookReturned where
  url : Option String := none
deriving DecidableEq

/-- `AWS.CodePipeline.PutWebhookOutput`. -/
structure AwsPutWebhookOutput where
  webhook : Option AwsWebhookReturned := none
deriving DecidableEq

/-- `AWS.CloudWatch.Datapoint`. -/
structure AwsDatapoint where
  timestamp : Option JsDate := none
  sum : Option ℚ := none
  average : Option ℚ := none
  minimum : Option ℚ := none
  maximum : Option ℚ := none
deriving DecidableEq

/-- `AWS.CloudWatch.GetMetricStatisticsOutput`. -/
structure AwsMetricResult where
  datapoints : Option (List AwsDatapoint) := none
deriving DecidableEq

/-! ## Tool arguments

The MCP `CallToolRequest.params.arguments` bag.  The dispatcher performs no
validation (the `as`-casts in the source are erased at runtime), so every
field is optional; a tool reads the fields its schema declares.  Values are
typed per the declared schemas. -/

/-- One `{key, value}` element of the `tags` argument. -/
structure Tag where
  key : Option String := none
  value : Option String := none
deriving DecidableEq

/-- One element of the `filters` argument of `create_pipeline_webhook`. -/
structure WebhookFilter where
  jsonPath : Option String := none
  matchEquals : Option String := none
deriving DecidableEq

/-- The `authenticationConfiguration` argument of `create_pipeline_webhook`. -/
structure AuthConfig where
  SecretToken : Option String := none
  AllowedIpRange : Option String := none
deriving DecidableEq

/-- The untyped argument bag of one tool invocation. -/
structure ToolArguments where
  pipelineName : Option String := none
  executionId : Option String := none
  stageName : Option String := none
  actionName : Option String := none
  token : Option String := none
  approved : Option Bool := none
  comments : Option String := none
  reason : Option String := none
  period : Option ℚ := none
  startTime : Option String := none
  endTime : Option String := none
  tags : Option (List Tag) := none
  webhookName : Option String := none
  targetAction : Option String := none
  authentication : Option String := none
  authenticationConfiguration : Option AuthConfig := none
  filters : Option (List WebhookFilter) := none
  pipelineExecutionId : Option String := none
deriving DecidableEq

/-! ## Reshaped tool outputs -/

/-- Element of the `pipelines` payload of `list_pipelines`. -/
structure PipelineSummaryOut where
  name : String
  version : Nat
  created : String
  updated : String
deriving DecidableEq

/-- Reshaped transition state in `get_pipeline_state` output. -/
structure TransitionStateOut where
  enabled : Bool
  lastChangedBy : Option String
  lastChangedAt : Option JsDate
  disabledReason : Option String
deriving DecidableEq

/-- Reshaped stage-level latest execution in `get_pipeline_state` output. -/
structure StageExecutionOut where
  pipelineExecutionId : String
  status : String
deriving DecidableEq

/-- Reshaped action error details in `get_pipeline_state` output. -/
structure ErrorDetailsOut where
  code : String
  message : String
deriving DecidableEq

/-- Reshaped action-level latest execution in `get_pipeline_state` output. -/
structure ActionExecutionOut where
  status : String
  summary : Option String
  lastStatusChange : StrDate
  token : Option String
  externalExecutionId : Option String
  externalExecutionUrl : Option String
  errorDetails : Option ErrorDetailsOut
deriving DecidableEq

/-- Reshaped action revision in `get_pipeline_state` output. -/
structure ActionRevisionOut where
  revisionId : String
  revisionChangeId : String
  created : StrDate
deriving DecidableEq

/-- Reshaped action state in `get_pipeline_state` output. -/
structure ActionStateOut where
  actionName : String
  currentRevision : Option ActionRevisionOut
  latestExecution : Option ActionExecutionOut
  entityUrl : Option String
deriving DecidableEq

/-- Reshaped stage state in `get_pipeline_state` output. -/
structure StageStateOut where
  stageName : String
  inboundTransitionState : Option TransitionStateOut
  actionStates : List ActionStateOut
  latestExecution : Option StageExecutionOut
deriving DecidableEq

/-- The `pipelineState` payload of `get_pipeline_state`. -/
structure PipelineStateOut where
  pipelineName : String
  pipelineVersion : Nat
  stageStates : List StageStateOut
  created : String
  updated : String
deriving DecidableEq

/-- Reshaped source revision in `list_pipeline_executions` output. -/
structure SourceRevisionOut where
  name : String
  revisionId : String
  revisionUrl : String
  revisionSummary : String
deriving DecidableEq

/-- Element of the `executions` payload of `list_pipeline_executions`. -/
structure ExecutionOut where
  pipelineExecutionId : String
  status : String
  startTime : String
  lastUpdateTime : String
  sourceRevisions : List SourceRevisionOut
deriving DecidableEq

/-- Reshaped artifact revision in `get_pipeline_execution_logs` output. -/
structure LogsArtifactRevisionOut where
  name : Option String
  revisionId : Option String
  revisionSummary : Option String
  revisionUrl : Option String
deriving DecidableEq

/-- The inner `pipelineExecution` member of the `logs` payload. -/
structure LogsExecutionOut where
  pipelineExecutionId : Option String
  status : Option String
  artifactRevisions : Option (List LogsArtifactRevisionOut)
deriving DecidableEq

/-- The `logs` payload of `get_pipeline_execution_logs`. -/
structure LogsOut where
  pipelineName : Option String
  pipelineVersion : NumStr
  pipelineExecution : LogsExecutionOut
deriving DecidableEq

/-- Reshaped action in `get_pipeline_details` output (pure projection). -/
structure DetailActionOut where
  name : Option String
  actionTypeId : Option AwsActionTypeId
  runOrder : Option Nat
  configuration : Option (List (String × String))
  outputArtifacts : Option (List String)
  inputArtifacts : Option (List String)
  region : Option String
  actionNamespace : Option String
deriving DecidableEq

/-- Reshaped stage in `get_pipeline_details` output. -/
structure DetailStageOut where
  name : Option String
  actions : Option (List DetailActionOut)
deriving DecidableEq

/-- The `metadata` member of the `get_pipeline_details` payload. -/
structure DetailMetadataOut where
  created : String
  updated : String
  pipelineArn : String
deriving DecidableEq

/-- The `pipeline` payload of `get_pipeline_details`. -/
structure PipelineDetailsOut where
  name : String
  roleArn : String
  artifactStore : Option AwsArtifactStore
  stages : Option (List DetailStageOut)
  version : Nat
  metadata : DetailMetadataOut
deriving DecidableEq

/-- The `webhookDetails` member of the `create_pipeline_webhook` payload. -/
structure WebhookDetailsOut where
  name : Option String
  url : Option String
  targetPipeline : Option String
  targetAction : Option String
deriving DecidableEq

/-- The `timeRange` member of the `metrics` payload. -/
structure TimeRangeOut where
  startTime : String
  endTime : String
  periodSeconds : ℚ
deriving DecidableEq

/-- The `executionStats` member of the `metrics` payload. -/
structure ExecStatsOut where
  totalExecutions : ℚ
  successfulExecutions : ℚ
  failedExecutions : ℚ
  successRate : String
deriving DecidableEq

/-- Element of `executionTime.dataPoints` in the `metrics` payload. -/
structure ExecTimeDatapointOut where
  timestamp : Option String
  average : Option ℚ
  minimum : Option ℚ
  maximum : Option ℚ
deriving DecidableEq

/-- The `executionTime` member of the `metrics` payload. -/
structure ExecutionTimeOut where
  average : ℚ
  minimum : JsNum
  maximum : JsNum
  dataPoints : List ExecTimeDatapointOut
deriving DecidableEq

/-- Element of `stagePerformance` in the `metrics` payload. -/
structure StagePerformanceOut where
  stageName : String
  averageDuration : ℚ
  executionCount : Nat
deriving DecidableEq

/-- The `metrics` payload of `get_pipeline_metrics`. -/
structure MetricsOut where
  pipelineName : Option String
  timeRange : TimeRangeOut
  executionStats : ExecStatsOut
  executionTime : ExecutionTimeOut
  stagePerformance : List StagePerformanceOut
deriving DecidableEq

/-! ## Remote calls and the remote oracle -/

/-- The webhook definition sent in a `putWebhook` request. -/
structure WebhookDefinition where
  name : Option String
  targetPipeline : Option String
  targetAction : Option String
  filters : List WebhookFilter
  authentication : Option String
  authenticationConfiguration : AuthConfig
deriving DecidableEq

/-- One outbound remote call, with the request parameters the tool put on the
wire.  The trace of these calls is the observable side effect of a tool. -/
inductive RemoteCall where
  | listPipelines : RemoteCall
  | getPipelineState (name : Option String) : RemoteCall
  | listPipelineExecutions (pipelineName : Option String) (maxResults : Option Nat) : RemoteCall
  | putApprovalResult (pipelineName stageName actionName token : Option String)
      (resultStatus : String) (resultSummary : String) : RemoteCall
  | retryStageExecution (pipelineName stageName pipelineExecutionId : Option String)
      (retryMode : String) : RemoteCall
  | startPipelineExecution (name : Option String) : RemoteCall
  | getPipelineExecution (pipelineName pipelineExecutionId : Option String) : RemoteCall
  | stopPipelineExecution (pipelineName pipelineExecutionId : Option String)
      (reason : String) (abandon : Bool) : RemoteCall
  | getPipeline (name : Option String) : RemoteCall
  | tagResource (resourceArn : String) (tags : List Tag) : RemoteCall
  | putWebhook (webhook : WebhookDefinition) : RemoteCall
  | registerWebhookWithThirdParty (webhookName : Option String) : RemoteCall
  | getMetricStatistics (metricName : String) (pipelineName : Option String)
      (startTime endTime : JsDate) (period : ℚ) (statistics : List String) : RemoteCall
deriving DecidableEq

/-- The remote collaborators (CodePipeline and CloudWatch), modelled as a
snapshot oracle: one fixed response — either a value or a thrown error — per
endpoint, plus the wall clock `new Date()` reads. -/
structure Remote where
  now : JsDate
  listPipelinesResp : Except JsError AwsListPipelinesOutput
  getPipelineStateResp : Except JsError AwsGetPipelineStateOutput
  listPipelineExecutionsResp : Except JsError AwsListPipelineExecutionsOutput
  putApprovalResultResp : Except JsError Unit
  retryStageExecutionResp : Except JsError Unit
  startPipelineExecutionResp : Except JsError AwsStartPipelineExecutionOutput
  getPipelineExecutionResp : Except JsError AwsGetPipelineExecutionOutput
  stopPipelineExecutionResp : Except JsError Unit
  getPipelineResp : Except JsError AwsGetPipelineOutput
  tagResourceResp : Except JsError Unit
  putWebhookResp : Except JsError AwsPutWebhookOutput
  registerWebhookResp : Except JsError Unit
  succeededMetricResp : Except JsError AwsMetricResult
  failedMetricResp : Except JsError AwsMetricResult
  executionTimeMetricResp : Except JsError AwsMetricResult

/-- The typed payload a tool serializes into its success envelope
(`JSON.stringify(payload, null, 2)` is presentation only). -/
inductive ToolPayload where
  | pipelines (items : List PipelineSummaryOut) : ToolPayload
  | pipelineState (state : PipelineStateOut) : ToolPayload
  | executions (items : List ExecutionOut) : ToolPayload
  | message (text : String) : ToolPayload
  | messageWithExecutionId (text executionId : String) : ToolPayload
  | logs (value : LogsOut) : ToolPayload
  | pipelineDetails (value : PipelineDetailsOut) : ToolPayload
  | tagged (text resourceArn : String) (tags : List Tag) : ToolPayload
  | webhookCreated (text : String) (webhookDetails : WebhookDetailsOut) : ToolPayload
  | metrics (value : MetricsOut) : ToolPayload
deriving DecidableEq

/-- The uniform result of one tool invocation: a success payload or a thrown
error, together with the ordered trace of remote calls issued. -/
abbrev ToolResult := Except JsError ToolPayload × List RemoteCall

/-! ## Tool handlers (`src/tools/*.ts`) -/

/-- `listPipelines` (`src/tools/list_pipelines.ts`): reshapes each remote
summary with `'' / 0 / ''` defaults for absent fields. -/
def listPipelinesTool (remote : Remote) (_input : ToolArguments) : ToolResult :=
  match remote.listPipelinesResp with
  | .error e => (.error e, [.listPipelines])
  | .ok resp =>
      let pipelines := (resp.pipelines.getD []).map fun p =>
        { name := jsOrStr p.name ""
          version := p.version.getD 0
          created := jsOrStr (p.created.map jsToISOString) ""
          updated := jsOrStr (p.updated.map jsToISOString) "" : PipelineSummaryOut }
      (.ok (.pipelines pipelines), [.listPipelines])

/-- Conversion of one remote `TransitionState` (`get_pipeline_state`). -/
def transitionStateOutOf (t : AwsTransitionState) : TransitionStateOut :=
  { enabled := t.enabled.getD false
    lastChangedBy := t.lastChangedBy
    lastChangedAt := t.lastChangedAt
    disabledReason := t.disabledReason }

/-- Conversion of one remote stage-level `StageExecution`. -/
def stageExecutionOutOf (e : AwsStageExecution) : StageExecutionOut :=
  { pipelineExecutionId := jsOrStr e.pipelineExecutionId ""
    status := jsOrStr e.status "" }

/-- Conversion of one remote `ActionExecution`; an absent `lastStatusChange`
is replaced by the string `new Date().toISOString()`. -/
def actionExecutionOutOf (now : JsDate) (e : AwsActionExecution) : ActionExecutionOut :=
  { status := jsOrStr e.status ""
    summary := e.summary
    lastStatusChange :=
      match e.lastStatusChange with
      | some d => .date d
      | none => .str (jsToISOString now)
    token := e.token
    externalExecutionId := e.externalExecutionId
    externalExecutionUrl := e.externalExecutionUrl
    errorDetails := e.errorDetails.map fun err =>
      { code := jsOrStr err.code "", message := jsOrStr err.message "" } }

/-- Conversion of one remote `ActionRevision`. -/
def actionRevisionOutOf (now : JsDate) (r : AwsActionRevision) : ActionRevisionOut :=
  { revisionId := jsOrStr r.revisionId ""
    revisionChangeId := jsOrStr r.revisionChangeId ""
    created :=
      match r.created with
      | some d => .date d
      | none => .str (jsToISOString now) }

/-- Conversion of one remote `ActionState`. -/
def actionStateOutOf (now : JsDate) (a : AwsActionState) : ActionStateOut :=
  { actionName := jsOrStr a.actionName ""
    currentRevision := a.currentRevision.map (actionRevisionOutOf now)
    latestExecution := a.latestExecution.map (actionExecutionOutOf now)
    entityUrl := a.entityUrl }

/-- Conversion of one remote `StageState`. -/
def stageStateOutOf (now : JsDate) (s : AwsStageState) : StageStateOut :=
  { stageName := jsOrStr s.stageName ""
    inboundTransitionState := s.inboundTransitionState.map transitionStateOutOf
    actionStates := (s.actionStates.getD []).map (actionStateOutOf now)
    latestExecution := s.latestExecution.map stageExecutionOutOf }

/-- Reshaping of the whole `GetPipelineStateOutput`. -/
def pipelineStateOutOf (now : JsDate) (resp : AwsGetPipelineStateOutput) : PipelineStateOut :=
  { pipelineName := jsOrStr resp.pipelineName ""
    pipelineVersion := resp.pipelineVersion.getD 0
    stageStates := (resp.stageStates.getD []).map (stageStateOutOf now)
    created := jsOrStr (resp.created.map jsToISOString) ""
    updated := jsOrStr (resp.updated.map jsToISOString) "" }

/-- `getPipelineState` (`src/tools/get_pipeline_state.ts`). -/
def getPipelineStateTool (remote : Remote) (input : ToolArguments) : ToolResult :=
  match remote.getPipelineStateResp with
  | .error e => (.error e, [.getPipelineState input.pipelineName])
  | .ok resp =>
      (.ok (.pipelineState (pipelineStateOutOf remote.now resp)),
       [.getPipelineState input.pipelineName])

/-- Conversion of one remote `PipelineExecutionSummary`
(`list_pipeline_executions`). -/
def executionOutOf (e : AwsPipelineExecutionSummary) : ExecutionOut :=
  { pipelineExecutionId := jsOrStr e.pipelineExecutionId ""
    status := jsOrStr e.status ""
    startTime := jsOrStr (e.startTime.map jsToISOString) ""
    lastUpdateTime := jsOrStr (e.lastUpdateTime.map jsToISOString) ""
    sourceRevisions := (e.sourceRevisions.getD []).map fun r =>
      { name := jsOrStr r.actionName ""
        revisionId := jsOrStr r.revisionId ""
        revisionUrl := jsOrStr r.revisionUrl ""
        revisionSummary := jsOrStr r.revisionSummary "" } }

/-- `listPipelineExecutions` (`src/tools/list_pipeline_executions.ts`). -/
def listPipelineExecutionsTool (remote : Remote) (input : ToolArguments) : ToolResult :=
  match remote.listPipelineExecutionsResp with
  | .error e => (.error e, [.listPipelineExecutions input.pipelineName none])
  | .ok resp =>
      (.ok (.executions ((resp.pipelineExecutionSummaries.getD []).map executionOutOf)),
       [.listPipelineExecutions input.pipelineName none])

/-- `approveAction` (`src/tools/approve_action.ts`): `approved ? 'Approved' :
'Rejected'` under JavaScript truthiness, summary `comments || ''`. -/
def approveActionTool (remote : Remote) (input : ToolArguments) : ToolResult :=
  let approvedB := input.approved.getD false
  let call : RemoteCall :=
    .putApprovalResult input.pipelineName input.stageName input.actionName input.token
      (if approvedB then "Approved" else "Rejected") (jsOrStr input.comments "")
  match remote.putApprovalResultResp with
  | .error e => (.error e, [call])
  | .ok _ =>
      (.ok (.message ("Action " ++ (if approvedB then "approved" else "rejected") ++
        " successfully")), [call])

/-- `retryStage` (`src/tools/retry_stage.ts`): the retry mode put on the wire
is the fixed literal `FAILED_ACTIONS`. -/
def retryStageTool (remote : Remote) (input : ToolArguments) : ToolResult :=
  let call : RemoteCall :=
    .retryStageExecution input.pipelineName input.stageName input.pipelineExecutionId
      "FAILED_ACTIONS"
  match remote.retryStageExecutionResp with
  | .error e => (.error e, [call])
  | .ok _ => (.ok (.message "Stage retry initiated successfully"), [call])

/-- `triggerPipeline` (`src/tools/trigger_pipeline.ts`). -/
def triggerPipelineTool (remote : Remote) (input : ToolArguments) : ToolResult :=
  match remote.startPipelineExecutionResp with
  | .error e => (.error e, [.startPipelineExecution input.pipelineName])
  | .ok resp =>
      (.ok (.messageWithExecutionId "Pipeline triggered successfully"
        (jsOrStr resp.pipelineExecutionId "")),
       [.startPipelineExecution input.pipelineName])

/-- Reshaping of the logs payload (`get_pipeline_execution_logs`). -/
def logsOutOf (input : ToolArguments) (resp : AwsGetPipelineExecutionOutput) : LogsOut :=
  { pipelineName := jsOrOptStr (resp.pipelineExecution.bind (·.pipelineName)) input.pipelineName
    pipelineVersion :=
      match resp.pipelineExecution.bind (·.pipelineVersion) with
      | some n => if n = 0 then .str "1" else .num n
      | none => .str "1"
    pipelineExecution :=
      { pipelineExecutionId := resp.pipelineExecution.bind (·.pipelineExecutionId)
        status := resp.pipelineExecution.bind (·.status)
        artifactRevisions :=
          (resp.pipelineExecution.bind (·.artifactRevisions)).map fun revisions =>
            revisions.map fun r =>
              { name := r.name
                revisionId := r.revisionId
                revisionSummary := r.revisionSummary
                revisionUrl := r.revisionUrl } } }

/-- `getPipelineExecutionLogs` (`src/tools/get_pipeline_execution_logs.ts`). -/
def getPipelineExecutionLogsTool (remote : Remote) (input : ToolArguments) : ToolResult :=
  match remote.getPipelineExecutionResp with
  | .error e => (.error e, [.getPipelineExecution input.pipelineName input.executionId])
  | .ok resp =>
      (.ok (.logs (logsOutOf input resp)),
       [.getPipelineExecution input.pipelineName input.executionId])

/-- `stopPipelineExecution` (`src/tools/stop_pipeline_execution.ts`): reason
`reason || 'Stopped by user'`, `abandon` hard-coded to `false`. -/
def stopPipelineExecutionTool (remote : Remote) (input : ToolArguments) : ToolResult :=
  let call : RemoteCall :=
    .stopPipelineExecution input.pipelineName input.executionId
      (jsOrStr input.reason "Stopped by user") false
  match remote.stopPipelineExecutionResp with
  | .error e => (.error e, [call])
  | .ok _ => (.ok (.message "Pipeline execution stopped successfully"), [call])

/-- Projection of one action declaration (`get_pipeline_details`): fields are
passed through unchanged, absent stays absent. -/
def detailActionOutOf (a : AwsActionDeclaration) : DetailActionOut :=
  { name := a.name
    actionTypeId := a.actionTypeId
    runOrder := a.runOrder
    configuration := a.configuration
    outputArtifacts := a.outputArtifacts
    inputArtifacts := a.inputArtifacts
    region := a.region
    actionNamespace := a.actionNamespace }

/-- Reshaping of the details payload: scalar roots are defaulted but
`artifactStore` and the optional `stages` subtree are passed through. -/
def pipelineDetailsOutOf (resp : AwsGetPipelineOutput) : PipelineDetailsOut :=
  { name := jsOrStr (resp.pipeline.bind (·.name)) ""
    roleArn := jsOrStr (resp.pipeline.bind (·.roleArn)) ""
    artifactStore := resp.pipeline.bind (·.artifactStore)
    stages := ((resp.pipeline.bind (·.stages)).map fun stages =>
      stages.map fun stage =>
        { name := stage.name
          actions := stage.actions.map fun actions => actions.map detailActionOutOf })
    version := (resp.pipeline.bind (·.version)).getD 0
    metadata :=
      { created := jsOrStr ((resp.metadata.bind (·.created)).map jsToISOString) ""
        updated := jsOrStr ((resp.metadata.bind (·.updated)).map jsToISOString) ""
        pipelineArn := jsOrStr (resp.metadata.bind (·.pipelineArn)) "" } }

/-- `getPipelineDetails` (`src/tools/get_pipeline_details.ts`). -/
def getPipelineDetailsTool (remote : Remote) (input : ToolArguments) : ToolResult :=
  match remote.getPipelineResp with
  | .error e => (.error e, [.getPipeline input.pipelineName])
  | .ok resp => (.ok (.pipelineDetails (pipelineDetailsOutOf resp)), [.getPipeline input.pipelineName])

/-- `tagPipelineResource` (`src/tools/tag_pipeline_resource.ts`): resolves the
pipeline ARN first and throws before any tagging call when it is absent. -/
def tagPipelineResourceTool (remote : Remote) (input : ToolArguments) : ToolResult :=
  match remote.getPipelineResp with
  | .error e => (.error e, [.getPipeline input.pipelineName])
  | .ok resp =>
      match resp.metadata.bind (·.pipelineArn) with
      | none =>
          (.error ⟨"Error", "Could not find ARN for pipeline: " ++ jsInterp input.pipelineName⟩,
           [.getPipeline input.pipelineName])
      | some resourceArn =>
          match input.tags with
          | none =>
              (.error ⟨"TypeError", "Cannot read properties of undefined (reading 'map')"⟩,
               [.getPipeline input.pipelineName])
          | some tags =>
              let mapped := tags.map fun t => { key := t.key, value := t.value : Tag }
              match remote.tagResourceResp with
              | .error e =>
                  (.error e, [.getPipeline input.pipelineName, .tagResource resourceArn mapped])
              | .ok _ =>
                  (.ok (.tagged "Pipeline resource tagged successfully" resourceArn tags),
                   [.getPipeline input.pipelineName, .tagResource resourceArn mapped])

/-- The webhook definition `createPipelineWebhook` sends in its first call. -/
def webhookDefinitionOf (input : ToolArguments) : WebhookDefinition :=
  { name := input.webhookName
    targetPipeline := input.pipelineName
    targetAction := input.targetAction
    filters := (input.filters.getD []).map fun f =>
      { jsonPath := f.jsonPath, matchEquals := f.matchEquals }
    authentication := input.authentication
    authenticationConfiguration := input.authenticationConfiguration.getD {} }

/-- `createPipelineWebhook` (`src/tools/create_pipeline_webhook.ts`):
`putWebhook` first, then `registerWebhookWithThirdParty`; the success payload
echoes the input name, pipeline and target action. -/
def createPipelineWebhookTool (remote : Remote) (input : ToolArguments) : ToolResult :=
  let putCall : RemoteCall := .putWebhook (webhookDefinitionOf input)
  match remote.putWebhookResp with
  | .error e => (.error e, [putCall])
  | .ok resp =>
      match remote.registerWebhookResp with
      | .error e => (.error e, [putCall, .registerWebhookWithThirdParty input.webhookName])
      | .ok _ =>
          let webhookDetails : WebhookDetailsOut :=
            { name := input.webhookName
              url := resp.webhook.map fun w => jsStringCoerce w.url
              targetPipeline := input.pipelineName
              targetAction := input.targetAction }
          (.ok (.webhookCreated "Pipeline webhook created and registered successfully"
            webhookDetails),
           [putCall, .registerWebhookWithThirdParty input.webhookName])

/-! ## `getPipelineMetrics` (`src/tools/get_pipeline_metrics.ts`) -/

/-- `Datapoints?.reduce((sum, point) => sum + (point.Sum || 0), 0) || 0`. -/
def sumDatapointSums (r : AwsMetricResult) : ℚ :=
  match r.datapoints with
  | some l => l.foldl (fun s p => s + jsOrNum p.sum 0) 0
  | none => 0

/-- `totalExecutions > 0 ? (totalSuccessful / totalExecutions) * 100 : 0`. -/
def successRateOf (totalSuccessful totalFailed : ℚ) : ℚ :=
  if 0 < totalSuccessful + totalFailed then
    totalSuccessful / (totalSuccessful + totalFailed) * 100
  else 0

/-- One element of the formatted `executionTimeData` (pure projection with
`Timestamp?.toISOString()`). -/
def execTimeDatapointOutOf (p : AwsDatapoint) : ExecTimeDatapointOut :=
  { timestamp := p.timestamp.map jsToISOString
    average := p.average
    minimum := p.minimum
    maximum := p.maximum }

/-- `executionTimeMetric.Datapoints?.map(...) || []`. -/
def executionTimeDataOf (r : AwsMetricResult) : List ExecTimeDatapointOut :=
  ((r.datapoints.map fun l => l.map execTimeDatapointOutOf)).getD []

/-- `Datapoints?.length ? Datapoints.reduce((s, p) => s + (p.Average || 0), 0)
/ Datapoints.length : 0` — `undefined` and zero length are both falsy. -/
def executionTimeAverageOf (r : AwsMetricResult) : ℚ :=
  match r.datapoints with
  | some l =>
      if l.length ≠ 0 then l.foldl (fun s p => s + jsOrNum p.average 0) 0 / (l.length : ℚ)
      else 0
  | none => 0

/-- `Datapoints?.map(point => point.Minimum || 0) || [0]` — a present-but-empty
datapoint list stays the empty argument list (an empty array is truthy). -/
def executionTimeMinListOf (r : AwsMetricResult) : List ℚ :=
  (r.datapoints.map fun l => l.map fun p => jsOrNum p.minimum 0).getD [0]

/-- `Datapoints?.map(point => point.Maximum || 0) || [0]`. -/
def executionTimeMaxListOf (r : AwsMetricResult) : List ℚ :=
  (r.datapoints.map fun l => l.map fun p => jsOrNum p.maximum 0).getD [0]

/-- The earliest and latest `lastStatusChange` across a stage's actions
(the two accumulating `if` chains of the source's inner loop). -/
def stageWindowOf (actions : List AwsActionState) : Option JsDate × Option JsDate :=
  actions.foldl
    (fun acc action =>
      match action.latestExecution.bind (·.lastStatusChange) with
      | none => acc
      | some ts =>
          let earliest :=
            match acc.1 with
            | none => some ts
            | some cur => if ts.ms < cur.ms then some ts else some cur
          let latest :=
            match acc.2 with
            | none => some ts
            | some cur => if cur.ms < ts.ms then some ts else some cur
          (earliest, latest))
    (none, none)

/-- `stageMetrics[stageName]` update: create the entry on first sight (object
insertion order preserved), otherwise add one to the count and accumulate the
duration. -/
def bumpStageMetric (m : List (String × Nat × ℚ)) (stageName : String) (duration : ℚ) :
    List (String × Nat × ℚ) :=
  if m.any fun e => e.1 = stageName then
    m.map fun e => if e.1 = stageName then (e.1, e.2.1 + 1, e.2.2 + duration) else e
  else m ++ [(stageName, 1, duration)]

/-- Processing of one stage of the fetched pipeline state: guarded by
`latestExecution?.status === 'Succeeded' && stageName && actionStates &&
actionStates.length > 0`, then duration is latest minus earliest
`lastStatusChange` in seconds. -/
def stageMetricsStep (m : List (String × Nat × ℚ)) (stage : AwsStageState) :
    List (String × Nat × ℚ) :=
  match stage.latestExecution.bind (·.status), stage.stageName, stage.actionStates with
  | some "Succeeded", some stageName, some actions =>
      if stageName ≠ "" ∧ 0 < actions.length then
        match stageWindowOf actions with
        | (some earliest, some latest) =>
            bumpStageMetric m stageName (((latest.ms - earliest.ms : Int) : ℚ) / 1000)
        | _ => m
      else m
  | _, _, _ => m

/-- The per-execution loop of `getPipelineMetrics`: for every listed execution
with a start time and status `Succeeded`, fetch the execution detail (unused)
and the *current* pipeline state, then accumulate per-stage durations. -/
def metricsLoop (remote : Remote) (pipelineName : Option String) :
    List AwsPipelineExecutionSummary → List (String × Nat × ℚ) → List RemoteCall →
    Except JsError (List (String × Nat × ℚ)) × List RemoteCall
  | [], m, tr => (.ok m, tr)
  | execution :: rest, m, tr =>
      if execution.startTime ≠ none ∧ execution.status = some "Succeeded" then
        let tr1 := tr ++ [.getPipelineExecution pipelineName
          (some (jsOrStr execution.pipelineExecutionId ""))]
        match remote.getPipelineExecutionResp with
        | .error e => (.error e, tr1)
        | .ok _ =>
            let tr2 := tr1 ++ [.getPipelineState pipelineName]
            match remote.getPipelineStateResp with
            | .error e => (.error e, tr2)
            | .ok st =>
                metricsLoop remote pipelineName rest
                  ((st.stageStates.getD []).foldl stageMetricsStep m) tr2
      else metricsLoop remote pipelineName rest m tr

/-- `Object.entries(stageMetrics)` mapped to the reported `stagePerformance`. -/
def stageDurationsOf (m : List (String × Nat × ℚ)) : List StagePerformanceOut :=
  m.map fun e =>
    { stageName := e.1
      averageDuration := if 0 < e.2.1 then e.2.2 / (e.2.1 : ℚ) else 0
      executionCount := e.2.1 }

/-- `const endTime = input.endTime ? new Date(input.endTime) : new Date()`;
an unparsable provided bound is the `Invalid Date` whose later serialization
throws a `RangeError`. -/
def metricsEndTime (remote : Remote) (input : ToolArguments) : Except JsError JsDate :=
  match input.endTime with
  | none => .ok remote.now
  | some s =>
      match jsDateParse s with
      | some d => .ok d
      | none => .error ⟨"RangeError", "Invalid time value"⟩

/-- `const startTime = input.startTime ? new Date(input.startTime) :
new Date(endTime.getTime() - 7 * 24 * 60 * 60 * 1000)`. -/
def metricsStartTime (endD : JsDate) (input : ToolArguments) : Except JsError JsDate :=
  match input.startTime with
  | none => .ok ⟨endD.ms - 604800000⟩
  | some s =>
      match jsDateParse s with
      | some d => .ok d
      | none => .error ⟨"RangeError", "Invalid time value"⟩

/-- Resolution of the metrics window: `endTime` defaults to `new Date()`,
`startTime` to one week earlier. -/
def metricsResolveTimes (remote : Remote) (input : ToolArguments) :
    Except JsError (JsDate × JsDate) :=
  match metricsEndTime remote input with
  | .error e => .error e
  | .ok endD =>
      match metricsStartTime endD input with
      | .error e => .error e
      | .ok startD => .ok (startD, endD)

/-- Assembly of the `metrics` payload from the fetched series and the
accumulated stage metrics. -/
def assembleMetrics (input : ToolArguments) (period : ℚ) (startT endT : JsDate)
    (successMetric failedMetric executionTimeMetric : AwsMetricResult)
    (stageMetrics : List (String × Nat × ℚ)) : MetricsOut :=
  let totalSuccessful := sumDatapointSums successMetric
  let totalFailed := sumDatapointSums failedMetric
  { pipelineName := input.pipelineName
    timeRange :=
      { startTime := jsToISOString startT
        endTime := jsToISOString endT
        periodSeconds := period }
    executionStats :=
      { totalExecutions := totalSuccessful + totalFailed
        successfulExecutions := totalSuccessful
        failedExecutions := totalFailed
        successRate := toFixed2 (successRateOf totalSuccessful totalFailed) ++ "%" }
    executionTime :=
      { average := executionTimeAverageOf executionTimeMetric
        minimum := jsMathMin (executionTimeMinListOf executionTimeMetric)
        maximum := jsMathMax (executionTimeMaxListOf executionTimeMetric)
        dataPoints := executionTimeDataOf executionTimeMetric }
    stagePerformance := stageDurationsOf stageMetrics }

/-- The three CloudWatch statistics requests of `getPipelineMetrics`. -/
def metricCallOf (metricName : String) (input : ToolArguments)
    (startT endT : JsDate) (period : ℚ) (statistics : List String) : RemoteCall :=
  .getMetricStatistics metricName input.pipelineName startT endT period statistics

/-- The body of `getPipelineMetrics` after the window is resolved: three
sequential CloudWatch queries, one execution listing capped at 20, the
per-execution loop, then payload assembly. -/
def getPipelineMetricsRun (remote : Remote) (input : ToolArguments)
    (period : ℚ) (startT endT : JsDate) : ToolResult :=
  let c1 := metricCallOf "SucceededPipeline" input startT endT period
    ["Sum", "Average", "Maximum"]
  match remote.succeededMetricResp with
  | .error e => (.error e, [c1])
  | .ok successMetric =>
      let c2 := metricCallOf "FailedPipeline" input startT endT period
        ["Sum", "Average", "Maximum"]
      match remote.failedMetricResp with
      | .error e => (.error e, [c1, c2])
      | .ok failedMetric =>
          let c3 := metricCallOf "PipelineExecutionTime" input startT endT period
            ["Average", "Minimum", "Maximum"]
          match remote.executionTimeMetricResp with
          | .error e => (.error e, [c1, c2, c3])
          | .ok executionTimeMetric =>
              let c4 := RemoteCall.listPipelineExecutions input.pipelineName (some 20)
              match remote.listPipelineExecutionsResp with
              | .error e => (.error e, [c1, c2, c3, c4])
              | .ok execsResp =>
                  match metricsLoop remote input.pipelineName
                    (execsResp.pipelineExecutionSummaries.getD []) [] [] with
                  | (.error e, tr) => (.error e, [c1, c2, c3, c4] ++ tr)
                  | (.ok stageMetrics, tr) =>
                      (.ok (.metrics (assembleMetrics input period startT endT
                        successMetric failedMetric executionTimeMetric stageMetrics)),
                       [c1, c2, c3, c4] ++ tr)

/-- `getPipelineMetrics` (`src/tools/get_pipeline_metrics.ts`). -/
def getPipelineMetricsTool (remote : Remote) (input : ToolArguments) : ToolResult :=
  match metricsResolveTimes remote input with
  | .error e => (.error e, [])
  | .ok times => getPipelineMetricsRun remote input (input.period.getD 86400) times.1 times.2

/-! ## The dispatcher (`CallToolRequestSchema` handler, `src/index.ts`) -/

/-- The MCP error codes used by the dispatcher. -/
inductive ErrorCode where
  | invalidRequest : ErrorCode
  | internalError : ErrorCode
deriving DecidableEq

/-- An `McpError` as raised by the dispatcher (the caller's error envelope). -/
structure McpError where
  code : ErrorCode
  message : String
deriving DecidableEq

/-- The dispatcher's catch clause: an `McpError` is rethrown unchanged and any
other thrown error becomes `InternalError` with the message
`Tool execution failed: ${error}`. -/
def catchToolError (r : ToolResult) : Except McpError ToolPayload × List RemoteCall :=
  match r with
  | (.ok payload, tr) => (.ok payload, tr)
  | (.error e, tr) =>
      (.error ⟨.internalError, "Tool execution failed: " ++ jsErrorToString e⟩, tr)

/-- The dispatcher body: the `switch (name)` of the `CallToolRequestSchema`
handler.  The default case throws `McpError(ErrorCode.InvalidRequest,
`Unknown tool: ${name}`)` before any remote call is made. -/
def handleCallTool (remote : Remote) (name : String) (input : ToolArguments) :
    Except McpError ToolPayload × List RemoteCall :=
  if name = "list_pipelines" then catchToolError (listPipelinesTool remote input)
  else if name = "get_pipeline_state" then catchToolError (getPipelineStateTool remote input)
  else if name = "list_pipeline_executions" then
    catchToolError (listPipelineExecutionsTool remote input)
  else if name = "approve_action" then catchToolError (approveActionTool remote input)
  else if name = "retry_stage" then catchToolError (retryStageTool remote input)
  else if name = "trigger_pipeline" then catchToolError (triggerPipelineTool remote input)
  else if name = "get_pipeline_execution_logs" then
    catchToolError (getPipelineExecutionLogsTool remote input)
  else if name = "stop_pipeline_execution" then
    catchToolError (stopPipelineExecutionTool remote input)
  else if name = "get_pipeline_details" then catchToolError (getPipelineDetailsTool remote input)
  else if name = "tag_pipeline_resource" then catchToolError (tagPipelineResourceTool remote input)
  else if name = "create_pipeline_webhook" then
    catchToolError (createPipelineWebhookTool remote input)
  else if name = "get_pipeline_metrics" then catchToolError (getPipelineMetricsTool remote input)
  else (.error ⟨.invalidRequest, "Unknown tool: " ++ name⟩, [])

/-- The operation registry: each advertised tool name (the `ListTools`
catalog) bound to its handler, in switch order. -/
def toolTable : List (String × (Remote → ToolArguments → ToolResult)) :=
  [("list_pipelines", listPipelinesTool),
   ("get_pipeline_state", getPipelineStateTool),
   ("list_pipeline_executions", listPipelineExecutionsTool),
   ("approve_action", approveActionTool),
   ("retry_stage", retryStageTool),
   ("trigger_pipeline", triggerPipelineTool),
   ("get_pipeline_execution_logs", getPipelineExecutionLogsTool),
   ("stop_pipeline_execution", stopPipelineExecutionTool),
   ("get_pipeline_details", getPipelineDetailsTool),
   ("tag_pipeline_resource", tagPipelineResourceTool),
   ("create_pipeline_webhook", createPipelineWebhookTool),
   ("get_pipeline_metrics", getPipelineMetricsTool)]

/-- The advertised operation names. -/
def toolNames : List String := toolTable.map (·.1)

/-- Registry lookup: the first handler bound to `name`, if any. -/
def lookupTool (name : String) :
    List (String × (Remote → ToolArguments → ToolResult)) →
      Option (Remote → ToolArguments → ToolResult)
  | [] => none
  | (key, handler) :: rest => if name = key then some handler else lookupTool name rest

/-! ## Specification-side normalization (for the §3 invariant)

These two definitions follow the specification's words, not the source: every
optional remote field that is absent is replaced by an explicit default —
empty string, zero, or empty sequence. -/

/-- Follows the spec's words: the `listPipelines` projection with every absent
field defaulted to `''` / `0` / `''`. -/
def specNormalizedPipelines (resp : AwsListPipelinesOutput) : List PipelineSummaryOut :=
  (resp.pipelines.getD []).map fun p =>
    { name := p.name.getD ""
      version := p.version.getD 0
      created := (p.created.map jsToISOString).getD ""
      updated := (p.updated.map jsToISOString).getD "" }

/-- Follows the spec's words: the `listPipelineExecutions` projection with
every absent field defaulted to `''` / `[]`. -/
def specNormalizedExecutions (resp : AwsListPipelineExecutionsOutput) : List ExecutionOut :=
  (resp.pipelineExecutionSummaries.getD []).map fun e =>
    { pipelineExecutionId := e.pipelineExecutionId.getD ""
      status := e.status.getD ""
      startTime := (e.startTime.map jsToISOString).getD ""
      lastUpdateTime := (e.lastUpdateTime.map jsToISOString).getD ""
      sourceRevisions := (e.sourceRevisions.getD []).map fun r =>
        { name := r.actionName.getD ""
          revisionId := r.revisionId.getD ""
          revisionUrl := r.revisionUrl.getD ""
          revisionSummary := r.revisionSummary.getD "" } }

/-! ## Concrete fixtures

A populated snapshot (`demoRemote`) and a minimal snapshot (`emptyRemote`)
used to instantiate the theorems below at concrete inputs. -/

/-- A populated remote snapshot: empty CloudWatch series, one succeeded
execution whose state shows a one-minute `Build` stage, and a pipeline whose
details carry no metadata (hence no ARN). -/
def demoRemote : Remote :=
  { now := ⟨1704067200000⟩
    listPipelinesResp := .ok { pipelines := some [{ name := some "demo" }] }
    getPipelineStateResp := .ok
      { pipelineName := some "demo"
        stageStates := some [
          { stageName := some "Build"
            actionStates := some [
              { actionName := some "compile"
                latestExecution := some
                  { status := some "Succeeded", lastStatusChange := some ⟨1704067100000⟩ } },
              { actionName := some "test"
                latestExecution := some
                  { status := some "Succeeded", lastStatusChange := some ⟨1704067160000⟩ } }]
            latestExecution := some
              { pipelineExecutionId := some "e1", status := some "Succeeded" } }] }
    listPipelineExecutionsResp := .ok
      { pipelineExecutionSummaries := some [
          { pipelineExecutionId := some "e1"
            status := some "Succeeded"
            startTime := some ⟨1704066000000⟩ }] }
    putApprovalResultResp := .ok ()
    retryStageExecutionResp := .ok ()
    startPipelineExecutionResp := .ok { pipelineExecutionId := some "e2" }
    getPipelineExecutionResp := .ok {}
    stopPipelineExecutionResp := .ok ()
    getPipelineResp := .ok { pipeline := some { name := some "demo" }, metadata := none }
    tagResourceResp := .ok ()
    putWebhookResp := .ok { webhook := some { url := some "https://hook" } }
    registerWebhookResp := .ok ()
    succeededMetricResp := .ok { datapoints := some [] }
    failedMetricResp := .ok { datapoints := none }
    executionTimeMetricResp := .ok { datapoints := some [] } }

/-- A minimal remote snapshot: every endpoint answers with an entirely empty
response (every optional field absent). -/
def emptyRemote : Remote :=
  { now := ⟨1700000000000⟩
    listPipelinesResp := .ok {}
    getPipelineStateResp := .ok {}
    listPipelineExecutionsResp := .ok {}
    putApprovalResultResp := .ok ()
    retryStageExecutionResp := .ok ()
    startPipelineExecutionResp := .ok {}
    getPipelineExecutionResp := .ok {}
    stopPipelineExecutionResp := .ok ()
    getPipelineResp := .ok {}
    tagResourceResp := .ok ()
    putWebhookResp := .ok {}
    registerWebhookResp := .ok ()
    succeededMetricResp := .ok {}
    failedMetricResp := .ok {}
    executionTimeMetricResp := .ok {} }

/-- Metrics invocation with an explicit, second-precision UTC start bound. -/
def demoMetricsInput : ToolArguments :=
  { pipelineName := some "demo"
    startTime := some "2024-01-01T00:00:00Z"
    endTime := some "2024-01-02T00:00:00.000Z" }

/-- The metrics payload `getPipelineMetricsTool demoRemote demoMetricsInput`
produces. -/
def demoMetricsOut : MetricsOut :=
  { pipelineName := some "demo"
    timeRange :=
      { startTime := "2024-01-01T00:00:00.000Z"
        endTime := "2024-01-02T00:00:00.000Z"
        periodSeconds := 86400 }
    executionStats :=
      { totalExecutions := 0
        successfulExecutions := 0
        failedExecutions := 0
        successRate := "0.00%" }
    executionTime :=
      { average := 0, minimum := .posInf, maximum := .negInf, dataPoints := [] }
    stagePerformance := [{ stageName := "Build", averageDuration := 60, executionCount := 1 }] }

/-- The remote-call trace of `getPipelineMetricsTool demoRemote demoMetricsInput`. -/
def demoMetricsTrace : List RemoteCall :=
  [.getMetricStatistics "SucceededPipeline" (some "demo") ⟨1704067200000⟩ ⟨1704153600000⟩
     86400 ["Sum", "Average", "Maximum"],
   .getMetricStatistics "FailedPipeline" (some "demo") ⟨1704067200000⟩ ⟨1704153600000⟩
     86400 ["Sum", "Average", "Maximum"],
   .getMetricStatistics "PipelineExecutionTime" (some "demo") ⟨1704067200000⟩ ⟨1704153600000⟩
     86400 ["Average", "Minimum", "Maximum"],
   .listPipelineExecutions (some "demo") (some 20),
   .getPipelineExecution (some "demo") (some "e1"),
   .getPipelineState (some "demo")]

/-- Arguments for tagging a pipeline that has no resolvable ARN. -/
def missingArnTagArgs : ToolArguments :=
  { pipelineName := some "missing-pipeline"
    tags := some [{ key := some "env", value := some "prod" }] }

/-- Arguments for a webhook creation with GitHub HMAC authentication. -/
def demoWebhookArgs : ToolArguments :=
  { pipelineName := some "demo"
    webhookName := some "demo-hook"
    targetAction := some "Source"
    authentication := some "GITHUB_HMAC"
    authenticationConfiguration := some { SecretToken := some "s3cret" } }

/-- The details payload `getPipelineDetailsTool demoRemote` produces: the
remote declaration omits `stages`, and the output leaves it absent. -/
def demoDetailsOut : PipelineDetailsOut :=
  { name := "demo"
    roleArn := ""
    artifactStore := none
    stages := none
    version := 0
    metadata := { created := "", updated := "", pipelineArn := "" } }

/-! ## Theorems -/

/-- With the default `""`, JavaScript `||` coincides with plain defaulting. -/
theorem jsOrStr_default_empty (a : Option String) : jsOrStr a "" = a.getD "" := by
  cases a with
  | none => rfl
  | some s =>
      by_cases h : s = ""
      · simp [jsOrStr, h]
      · simp [jsOrStr, h]

/-- C1: dispatching a name that is not in the operation table yields the
`InvalidRequest` error envelope with the `Unknown tool` message and issues no
remote call, and dispatching a registered name forwards to that name's bound
handler (with thrown tool errors wrapped); dispatch always returns an
envelope, by totality of `handleCallTool`. -/
theorem dispatch_matches_registry (remote : Remote) (name : String)
    (input : ToolArguments) :
    handleCallTool remote name input =
      match lookupTool name toolTable with
      | some handler => catchToolError (handler remote input)
      | none => (.error ⟨.invalidRequest, "Unknown tool: " ++ name⟩, []) := by
  by_cases h1 : name = "list_pipelines"
  · subst h1; rfl
  by_cases h2 : name = "get_pipeline_state"
  · subst h2; rfl
  by_cases h3 : name = "list_pipeline_executions"
  · subst h3; rfl
  by_cases h4 : name = "approve_action"
  · subst h4; rfl
  by_cases h5 : name = "retry_stage"
  · subst h5; rfl
  by_cases h6 : name = "trigger_pipeline"
  · subst h6; rfl
  by_cases h7 : name = "get_pipeline_execution_logs"
  · subst h7; rfl
  by_cases h8 : name = "stop_pipeline_execution"
  · subst h8; rfl
  by_cases h9 : name = "get_pipeline_details"
  · subst h9; rfl
  by_cases h10 : name = "tag_pipeline_resource"
  · subst h10; rfl
  by_cases h11 : name = "create_pipeline_webhook"
  · subst h11; rfl
  by_cases h12 : name = "get_pipeline_metrics"
  · subst h12; rfl
  simp [handleCallTool, toolTable, lookupTool, h1, h2, h3, h4, h5, h6, h7, h8, h9,
    h10, h11, h12]

/-- C3: when the pipeline-details lookup yields no ARN, `tagPipelineResource`
throws the `Could not find ARN` error and its trace contains only the details
lookup — the `tagResource` call is never issued. -/
theorem tag_without_arn_never_tags (remote : Remote) (input : ToolArguments)
    (resp : AwsGetPipelineOutput)
    (hresp : remote.getPipelineResp = .ok resp)
    (harn : resp.metadata.bind (·.pipelineArn) = none) :
    tagPipelineResourceTool remote input =
      (.error ⟨"Error", "Could not find ARN for pipeline: " ++ jsInterp input.pipelineName⟩,
       [.getPipeline input.pipelineName]) ∧
    ∀ arn tags, RemoteCall.tagResource arn tags ∉ (tagPipelineResourceTool remote input).2 := by
  have hmain : tagPipelineResourceTool remote input =
      (.error ⟨"Error", "Could not find ARN for pipeline: " ++ jsInterp input.pipelineName⟩,
       [.getPipeline input.pipelineName]) := by
    simp [tagPipelineResourceTool, hresp, harn]
  refine ⟨hmain, fun arn tags => ?_⟩
  rw [hmain]
  simp

/-- C4: `stopPipelineExecution` always puts `abandon = false` on the wire and,
when the optional `reason` is omitted, the literal reason `Stopped by user`. -/
theorem stop_execution_reason_and_abandon (remote : Remote) (input : ToolArguments) :
    (stopPipelineExecutionTool remote input).2 =
      [.stopPipelineExecution input.pipelineName input.executionId
        (jsOrStr input.reason "Stopped by user") false] ∧
    (input.reason = none →
      (stopPipelineExecutionTool remote input).2 =
        [.stopPipelineExecution input.pipelineName input.executionId "Stopped by user" false]) := by
  constructor
  · cases hr : remote.stopPipelineExecutionResp with
    | error e => simp [stopPipelineExecutionTool, hr]
    | ok u => simp [stopPipelineExecutionTool, hr]
  · intro hnone
    cases hr : remote.stopPipelineExecutionResp with
    | error e => simp [stopPipelineExecutionTool, hr, hnone, jsOrStr]
    | ok u => simp [stopPipelineExecutionTool, hr, hnone, jsOrStr]

/-- C4 witness: with no `reason` supplied, the issued call carries the literal
`Stopped by user` and `abandon = false`. -/
theorem stop_execution_reason_and_abandon_witness :
    ({ pipelineName := some "demo", executionId := some "e1" } : ToolArguments).reason = none ∧
    (stopPipelineExecutionTool demoRemote
        { pipelineName := some "demo", executionId := some "e1" }).2 =
      [.stopPipelineExecution (some "demo") (some "e1") "Stopped by user" false] :=
  ⟨rfl,
   (stop_execution_reason_and_abandon demoRemote
     { pipelineName := some "demo", executionId := some "e1" }).2 rfl⟩

/-- C3 witness: tagging `missing-pipeline` against a details response without
metadata fails with the ARN-not-found error and a trace containing only the
details lookup. -/
theorem tag_without_arn_never_tags_witness :
    tagPipelineResourceTool demoRemote missingArnTagArgs =
      (.error ⟨"Error", "Could not find ARN for pipeline: " ++
        jsInterp missingArnTagArgs.pipelineName⟩,
       [.getPipeline missingArnTagArgs.pipelineName]) ∧
    ∀ arn tags,
      RemoteCall.tagResource arn tags ∉ (tagPipelineResourceTool demoRemote missingArnTagArgs).2 :=
  tag_without_arn_never_tags demoRemote missingArnTagArgs
    { pipeline := some { name := some "demo" }, metadata := none } rfl rfl

/-- C5: when both remote calls succeed, `createPipelineWebhook` issues
`putWebhook` first and `registerWebhookWithThirdParty` second, and its success
payload echoes the input webhook name, pipeline and target action. -/
theorem create_webhook_order_and_echo (remote : Remote) (input : ToolArguments)
    (resp : AwsPutWebhookOutput)
    (hput : remote.putWebhookResp = .ok resp)
    (hreg : remote.registerWebhookResp = .ok ()) :
    createPipelineWebhookTool remote input =
      (.ok (.webhookCreated "Pipeline webhook created and registered successfully"
        { name := input.webhookName
          url := resp.webhook.map fun w => jsStringCoerce w.url
          targetPipeline := input.pipelineName
          targetAction := input.targetAction }),
       [.putWebhook (webhookDefinitionOf input),
        .registerWebhookWithThirdParty input.webhookName]) := by
  simp [createPipelineWebhookTool, hput, hreg]

/-- C5 witness: the demo webhook invocation issues both calls in order and
echoes `demo-hook`, `demo` and `Source` in `webhookDetails`. -/
theorem create_webhook_order_and_echo_witness :
    createPipelineWebhookTool demoRemote demoWebhookArgs =
      (.ok (.webhookCreated "Pipeline webhook created and registered successfully"
        { name := some "demo-hook"
          url := some "https://hook"
          targetPipeline := some "demo"
          targetAction := some "Source" }),
       [.putWebhook (webhookDefinitionOf demoWebhookArgs),
        .registerWebhookWithThirdParty (some "demo-hook")]) :=
  create_webhook_order_and_echo demoRemote demoWebhookArgs
    { webhook := some { url := some "https://hook" } } rfl rfl

/-- C7: every `retryStage` invocation puts exactly one retry call on the wire,
whose retry mode is the fixed literal `FAILED_ACTIONS`. -/
theorem retry_stage_failed_actions_only (remote : Remote) (input : ToolArguments) :
    (retryStageTool remote input).2 =
      [.retryStageExecution input.pipelineName input.stageName input.pipelineExecutionId
        "FAILED_ACTIONS"] := by
  cases hr : remote.retryStageExecutionResp with
  | error e => simp [retryStageTool, hr]
  | ok u => simp [retryStageTool, hr]

/-- C8: the `get_pipeline_state` success payload always carries `stageStates`
as a present list — the reshaping of the remote's optional collection under
the `|| []` default — which is empty whenever the remote omits it. -/
theorem pipeline_state_stage_states_always_present (remote : Remote)
    (input : ToolArguments) (resp : AwsGetPipelineStateOutput)
    (hresp : remote.getPipelineStateResp = .ok resp) :
    (getPipelineStateTool remote input).1 =
      .ok (.pipelineState (pipelineStateOutOf remote.now resp)) ∧
    (pipelineStateOutOf remote.now resp).stageStates =
      (resp.stageStates.getD []).map (stageStateOutOf remote.now) ∧
    (resp.stageStates = none → (pipelineStateOutOf remote.now resp).stageStates = []) := by
  refine ⟨by simp [getPipelineStateTool, hresp], rfl, fun hnone => ?_⟩
  simp [pipelineStateOutOf, hnone]

/-- C8 witness: a remote response that omits `stageStates` entirely still
yields a success payload whose `stageStates` is the empty sequence. -/
theorem pipeline_state_stage_states_always_present_witness :
    (getPipelineStateTool emptyRemote { pipelineName := some "demo" }).1 =
      .ok (.pipelineState (pipelineStateOutOf emptyRemote.now {})) ∧
    (pipelineStateOutOf emptyRemote.now {}).stageStates = [] :=
  ⟨(pipeline_state_stage_states_always_present emptyRemote
      { pipelineName := some "demo" } {} rfl).1,
   (pipeline_state_stage_states_always_present emptyRemote
      { pipelineName := some "demo" } {} rfl).2.2 rfl⟩

/-- Inversion of a successful `getPipelineMetricsTool` run: exposes the
resolved window, the three fetched series, the listed executions, the loop
result and the assembled payload. -/
theorem metricsTool_ok_elim {remote : Remote} {input : ToolArguments}
    {m : MetricsOut} {tr : List RemoteCall}
    (hok : getPipelineMetricsTool remote input = (.ok (.metrics m), tr)) :
    ∃ times sm fm em execs sms tr2,
      metricsResolveTimes remote input = .ok times ∧
      remote.succeededMetricResp = .ok sm ∧
      remote.failedMetricResp = .ok fm ∧
      remote.executionTimeMetricResp = .ok em ∧
      remote.listPipelineExecutionsResp = .ok execs ∧
      metricsLoop remote input.pipelineName
        (execs.pipelineExecutionSummaries.getD []) [] [] = (.ok sms, tr2) ∧
      m = assembleMetrics input (input.period.getD 86400) times.1 times.2 sm fm em sms := by
  unfold getPipelineMetricsTool at hok
  split at hok
  · simp at hok
  rename_i times htimes
  unfold getPipelineMetricsRun at hok
  split at hok
  · simp at hok
  rename_i sm hsm
  split at hok
  · simp at hok
  rename_i fm hfm
  split at hok
  · simp at hok
  rename_i em hem
  split at hok
  · simp at hok
  rename_i execs hexecs
  split at hok
  · simp at hok
  rename_i sms tr2 hloop
  obtain ⟨hpayload, htr⟩ := Prod.mk.injEq .. ▸ hok
  exact ⟨times, sm, fm, em, execs, sms, tr2, htimes, hsm, hfm, hem, hexecs, hloop,
    (ToolPayload.metrics.injEq .. ▸ (Except.ok.inj hpayload)).symm⟩

/-- C2: the reported `successRate` is `successCount / (successCount +
failureCount) × 100` — with the counts the sums of the `Sum` statistics over
the fetched success and failure datapoints — formatted by `toFixed(2)` with a
`%` suffix, and it is `0.00%` whenever the total execution count is zero (the
division is guarded, so the envelope is still produced). -/
theorem metrics_success_rate_formula (remote : Remote) (input : ToolArguments)
    (sm fm : AwsMetricResult) (m : MetricsOut) (tr : List RemoteCall)
    (hsm : remote.succeededMetricResp = .ok sm)
    (hfm : remote.failedMetricResp = .ok fm)
    (hok : getPipelineMetricsTool remote input = (.ok (.metrics m), tr)) :
    m.executionStats.successRate =
      toFixed2 (if 0 < sumDatapointSums sm + sumDatapointSums fm then
        sumDatapointSums sm / (sumDatapointSums sm + sumDatapointSums fm) * 100
      else 0) ++ "%" ∧
    (sumDatapointSums sm + sumDatapointSums fm = 0 →
      m.executionStats.successRate = "0.00%") := by
  obtain ⟨times, sm', fm', em', execs', sms', tr2, htimes, hsm', hfm', hem', hexecs',
    hloop, hm⟩ := metricsTool_ok_elim hok
  rw [hsm] at hsm'
  rw [hfm] at hfm'
  obtain rfl : sm = sm' := Except.ok.inj hsm'
  obtain rfl : fm = fm' := Except.ok.inj hfm'
  subst hm
  constructor
  · simp [assembleMetrics, successRateOf]
  · intro h0
    simp only [assembleMetrics, successRateOf, h0]
    norm_num
    with_unfolding_all rfl

/-- C2 witness: the demo fixture fetches empty success and absent failure
series (zero total executions) and reports exactly `0.00%`. -/
theorem metrics_success_rate_formula_witness :
    sumDatapointSums { datapoints := some [] } +
      sumDatapointSums { datapoints := none } = 0 ∧
    demoMetricsOut.executionStats.successRate = "0.00%" :=
  ⟨by with_unfolding_all rfl,
   (metrics_success_rate_formula demoRemote demoMetricsInput
      { datapoints := some [] } { datapoints := none } demoMetricsOut demoMetricsTrace
      rfl rfl (by with_unfolding_all rfl)).2 (by with_unfolding_all rfl)⟩

/-- The resolved window's start bound is the parsed `startTime` argument when
one is supplied. -/
theorem metricsResolveTimes_start {remote : Remote} {input : ToolArguments}
    {s : String} {d : JsDate} {times : JsDate × JsDate}
    (hst : input.startTime = some s)
    (hd : jsDateParse s = some d)
    (htimes : metricsResolveTimes remote input = .ok times) :
    times.1 = d := by
  unfold metricsResolveTimes at htimes
  cases hend : metricsEndTime remote input with
  | error e => rw [hend] at htimes; simp at htimes
  | ok endD =>
      rw [hend] at htimes
      simp only [] at htimes
      rw [show metricsStartTime endD input = .ok d from by
        simp [metricsStartTime, hst, hd]] at htimes
      obtain rfl := Except.ok.inj htimes
      rfl

/-- C9 (amended): an output timestamp is the canonical ISO-8601 UTC
millisecond serialization (`toISOString`) of the parsed input instant —
`metrics.timeRange.startTime` equals `jsToISOString` of the parsed
`startTime` argument, not necessarily the input string itself. -/
theorem metrics_start_time_canonical_serialization (remote : Remote)
    (input : ToolArguments) (s : String) (d : JsDate) (m : MetricsOut)
    (tr : List RemoteCall)
    (hst : input.startTime = some s)
    (hd : jsDateParse s = some d)
    (hok : getPipelineMetricsTool remote input = (.ok (.metrics m), tr)) :
    m.timeRange.startTime = jsToISOString d := by
  obtain ⟨times, sm', fm', em', execs', sms', tr2, htimes, hsm', hfm', hem', hexecs',
    hloop, hm⟩ := metricsTool_ok_elim hok
  obtain rfl : times.1 = d := metricsResolveTimes_start hst hd htimes
  subst hm
  simp [assembleMetrics]

/-- C9 witness: the demo run supplies `2024-01-01T00:00:00Z` and the emitted
start bound is its canonical serialization. -/
theorem metrics_start_time_canonical_serialization_witness :
    jsDateParse "2024-01-01T00:00:00Z" = some ⟨1704067200000⟩ ∧
    demoMetricsOut.timeRange.startTime = jsToISOString ⟨1704067200000⟩ :=
  ⟨by with_unfolding_all rfl,
   metrics_start_time_canonical_serialization demoRemote demoMetricsInput
     "2024-01-01T00:00:00Z" ⟨1704067200000⟩ demoMetricsOut demoMetricsTrace
     rfl (by with_unfolding_all rfl) (by with_unfolding_all rfl)⟩

/-- C9 counterexample: parse-then-serialize does not round-trip to the
identical string — the accepted ISO-8601 input `2024-01-01T00:00:00Z` is
emitted as `2024-01-01T00:00:00.000Z` in `metrics.timeRange.startTime`. -/
theorem metrics_start_time_not_identical_roundtrip :
    demoMetricsInput.startTime = some "2024-01-01T00:00:00Z" ∧
    getPipelineMetricsTool demoRemote demoMetricsInput =
      (.ok (.metrics demoMetricsOut), demoMetricsTrace) ∧
    demoMetricsOut.timeRange.startTime = "2024-01-01T00:00:00.000Z" ∧
    "2024-01-01T00:00:00.000Z" ≠ "2024-01-01T00:00:00Z" :=
  ⟨rfl, by with_unfolding_all rfl, rfl, by decide⟩

/-- C10: when the execution-duration series is present but empty, the metrics
payload is still produced and reports `minimum = +Infinity` (`Math.min()` of
no arguments), `maximum = -Infinity` (`Math.max()`), and `average = 0`. -/
theorem metrics_empty_duration_series_sentinels (remote : Remote)
    (input : ToolArguments) (em : AwsMetricResult) (m : MetricsOut)
    (tr : List RemoteCall)
    (hem : remote.executionTimeMetricResp = .ok em)
    (hempty : em.datapoints = some [])
    (hok : getPipelineMetricsTool remote input = (.ok (.metrics m), tr)) :
    m.executionTime.minimum = JsNum.posInf ∧
    m.executionTime.maximum = JsNum.negInf ∧
    m.executionTime.average = 0 := by
  obtain ⟨times, sm', fm', em', execs', sms', tr2, htimes, hsm', hfm', hem', hexecs',
    hloop, hm⟩ := metricsTool_ok_elim hok
  rw [hem] at hem'
  obtain rfl : em = em' := Except.ok.inj hem'
  subst hm
  refine ⟨?_, ?_, ?_⟩
  · simp [assembleMetrics, executionTimeMinListOf, hempty, jsMathMin]
  · simp [assembleMetrics, executionTimeMaxListOf, hempty, jsMathMax]
  · simp [assembleMetrics, executionTimeAverageOf, hempty]

/-- C10 witness: the demo fixture's duration series is present and empty, and
the produced payload reports the two infinities and a zero average. -/
theorem metrics_empty_duration_series_sentinels_witness :
    demoMetricsOut.executionTime.minimum = JsNum.posInf ∧
    demoMetricsOut.executionTime.maximum = JsNum.negInf ∧
    demoMetricsOut.executionTime.average = 0 :=
  metrics_empty_duration_series_sentinels demoRemote demoMetricsInput
    { datapoints := some [] } demoMetricsOut demoMetricsTrace
    rfl rfl (by with_unfolding_all rfl)

/-- C6 counterexample: the claimed normalization invariant fails on
`getPipelineDetails` — for a remote declaration that omits its `stages`
collection, the success payload leaves `stages` absent (`none`) instead of
normalizing it to an empty sequence. -/
theorem normalization_invariant_fails_on_details :
    getPipelineDetailsTool demoRemote { pipelineName := some "demo" } =
      (.ok (.pipelineDetails demoDetailsOut), [.getPipeline (some "demo")]) ∧
    demoDetailsOut.stages = none :=
  ⟨by with_unfolding_all rfl, rfl⟩

/-- C6 (amended): the structural-completeness normalization holds for the two
list projections — `listPipelines` and `listPipelineExecutions` replace every
absent optional remote field by `''` / `0` / `[]`, matching the
specification-side normalizers — while `getPipelineState` and
`getPipelineDetails` default only scalar fields and pass optional
substructures through (see the counterexample). -/
theorem normalization_defaults_for_list_tools (remote : Remote) (input : ToolArguments)
    (lp : AwsListPipelinesOutput) (le : AwsListPipelineExecutionsOutput)
    (h1 : remote.listPipelinesResp = .ok lp)
    (h2 : remote.listPipelineExecutionsResp = .ok le) :
    (listPipelinesTool remote input).1 = .ok (.pipelines (specNormalizedPipelines lp)) ∧
    (listPipelineExecutionsTool remote input).1 =
      .ok (.executions (specNormalizedExecutions le)) := by
  constructor
  · simp [listPipelinesTool, h1, specNormalizedPipelines, jsOrStr_default_empty]
  · simp [listPipelineExecutionsTool, h2, specNormalizedExecutions, executionOutOf,
      jsOrStr_default_empty]

/-- C6 amended witness: on the demo snapshot both list tools produce exactly
the spec-normalized projections. -/
theorem normalization_defaults_for_list_tools_witness :
    (listPipelinesTool demoRemote {}).1 =
      .ok (.pipelines (specNormalizedPipelines { pipelines := some [{ name := some "demo" }] })) ∧
    (listPipelineExecutionsTool demoRemote {}).1 =
      .ok (.executions (specNormalizedExecutions
        { pipelineExecutionSummaries := some [
            { pipelineExecutionId := some "e1"
              status := some "Succeeded"
              startTime := some ⟨1704066000000⟩ }] })) :=
  normalization_defaults_for_list_tools demoRemote {} _ _ rfl rfl

end CodePipelineMCP
